import Mathlib

/-!
Verification of the live-editor local driver (LiveEditorLocalDriver.js).

The driver is a client-side session manager: it keeps a local snapshot of a
remotely injected live editor, implements the setup / update / remove
lifecycle, a poll-based sync loop, and a bounded-retry reconnect supervisor.
All remote interaction goes through a single evaluate-expression channel.

This file gives a shallow embedding of the driver.  The module-level mutable
variables (`_model`, `_hasEditor`, `_retryCount`, `_cache`, the sync interval)
become an explicit `DriverState`; each driver function becomes a function from
state to state that additionally produces the ordered list of observable
events (remote calls issued / completed / failed, notifications emitted) and
the value handed back to the caller.  The remote side is external, so the
outcome of each remote call is supplied by an `Oracle` indexed by a call
counter.  Recursion between `_setup`, `_update`, the failure handler and the
reconnect supervisor is made total with an explicit fuel parameter; running
out of fuel is reported as `Fault.fuelOut`, which is distinct from the
JavaScript type error `Fault.undefDeref` raised when the code dereferences an
undefined value.
-/

namespace LiveEditorLocalDriver

/-- JSON-serializable values, the payloads of the remote model snapshot.
Numbers are modelled as integers; the snapshots exchanged by the driver carry
strings and small numerals, and no claim depends on non-integral numerics. -/
inductive JVal where
  | jnull
  | jbool (b : Bool)
  | jnum (n : Int)
  | jstr (s : String)
  | jarr (elems : List JVal)
  | jobj (fields : List (String × JVal))
deriving Repr

mutual

/-- Deep structural equality on JSON values, the behaviour of lodash
`_.isEqual` on JSON-serializable data (used at line 211 of the source). -/
def jeq : JVal → JVal → Bool
  | .jnull, .jnull => true
  | .jbool a, .jbool b => a == b
  | .jnum a, .jnum b => a == b
  | .jstr a, .jstr b => a == b
  | .jarr a, .jarr b => jeqList a b
  | .jobj a, .jobj b => jeqFields a b
  | _, _ => false

/-- Deep equality on JSON arrays, elementwise. -/
def jeqList : List JVal → List JVal → Bool
  | [], [] => true
  | a :: as, b :: bs => jeq a b && jeqList as bs
  | _, _ => false

/-- Deep equality on JSON objects, field-by-field in order. -/
def jeqFields : List (String × JVal) → List (String × JVal) → Bool
  | [], [] => true
  | (k, v) :: as, (l, w) :: bs => k == l && jeq v w && jeqFields as bs
  | _, _ => false
end

/-- JavaScript truthiness of a JSON value: `null`, `false`, `0` and the empty
string are falsy, everything else is truthy.  The merge loop at line 211 of
the source tests `!_model[key]`, which is a truthiness test. -/
def truthy : JVal → Bool
  | .jnull => false
  | .jbool b => b
  | .jnum n => n != 0
  | .jstr s => s != ""
  | .jarr _ => true
  | .jobj _ => true

/-- The local snapshot `_model`: a JavaScript object, i.e. a finite map from
string keys to JSON values, represented as an association list without
duplicate keys (insertion order preserved, as in JS objects). -/
abbrev Snapshot := List (String × JVal)

/-- Property read `m[key]`: `none` models JavaScript `undefined`. -/
def getKey : Snapshot → String → Option JVal
  | [], _ => none
  | (k, v) :: rest, key => if k == key then some v else getKey rest key

/-- Property write `m[key] = v`: overwrite in place, or append a new key. -/
def setKey : Snapshot → String → JVal → Snapshot
  | [], key, v => [(key, v)]
  | (k, w) :: rest, key, v =>
    if k == key then (key, v) :: rest else (k, w) :: setKey rest key v

/-- The attributes read off the `Model` instance handed to `_setup`/`_update`:
`{selector, value, property}` (lines 100-104 of the source).  Identity of the
edited thing is the (selector, property) pair; `value` is mutable content. -/
structure EditTarget where
  selector : String
  property : String
  value : String
deriving Repr, DecidableEq

/-- The diagnostic payload of a failed remote evaluation (`resp.result`);
the failure handler only inspects its `description` property, which may be
absent (`none`). -/
structure Diagnostic where
  description : Option String
deriving Repr, DecidableEq

/-- Outcome of the remote `getModel()` poll as seen by `_whenGetRemoteModel`
(lines 201-206): the result object may be missing/falsy, its `value` property
may be missing or not a string, the string may fail `JSON.parse`, or it
parses to an object.  `JSON.parse` itself is environment-provided, so the
parse outcome is part of the poll datum. -/
inductive PollValue where
  | missing
  | badValue
  | unparsable
  | parsed (data : List (String × JVal))
deriving Repr

/-- Remote calls issued through `_call`, identified by the expression built by
the driver. -/
inductive RCall where
  | rsetup (attr : EditTarget)
  | rupdate (attr : EditTarget)
  | rremove
  | rgetModel
  | rinject (scripts : List String)
deriving Repr, DecidableEq

/-- Outcome of one `_call` invocation, chosen by the environment:
the inspector may be disconnected (`_call` rejects immediately with no
argument and no remote round-trip, line 69-71), the remote evaluation may
throw (rejecting with the diagnostic, line 74-77), or it resolves. -/
inductive CallOut where
  | ok (pv : PollValue)
  | notConnected
  | thrown (d : Diagnostic)
deriving Repr

/-- The environment: for the n-th `_call` made by the driver and the call
being issued, the outcome of that remote evaluation. -/
abbrev Oracle := Nat → RCall → CallOut

/-- Observable events of a driver run, in order: remote calls issued,
their completion or failure, and the notifications the driver emits
(`modelChange` with the merged snapshot, and `init`). -/
inductive Ev where
  | issue (c : RCall)
  | complete (c : RCall)
  | failed (c : RCall)
  | modelChange (snapshot : Snapshot)
  | initNote
deriving Repr

/-- What a driver entry point hands back to its caller: JavaScript
`undefined` (a bare `return;`), or a promise that is already resolved with no
value, resolved with the remote result, or rejected with an optional
diagnostic. -/
inductive RetVal where
  | undef
  | resolvedEmpty
  | resolvedVal
  | rejectedWith (d : Option Diagnostic)
deriving Repr, DecidableEq

/-- Abnormal termination of a run of the embedding: exhaustion of the fuel
bounding the mutual recursion, or the JavaScript `TypeError` raised by
dereferencing `undefined` (e.g. `_setup(undefined)` calling `model.get`). -/
inductive Fault where
  | fuelOut
  | undefDeref
deriving Repr, DecidableEq

/-- The module-level mutable state of the driver.  `cacheModel` and
`cacheDependencies` are the `model` and `dependencies` properties of the
`_cache` object.  `syncOn` records whether the most recently started sync
interval is still scheduled; `leaked` counts earlier sync intervals whose
handle was overwritten in `_syncInterval` by a later `_startSyncLoop` and
which therefore can never be cleared and keep firing.  `calls` is a ghost
counter sequencing the `_call` invocations for the oracle. -/
structure DriverState where
  _model : Snapshot
  _hasEditor : Bool
  _retryCount : Nat
  cacheModel : Option EditTarget
  cacheDependencies : Option (List String)
  syncOn : Bool
  leaked : Nat
  calls : Nat
deriving Repr

/-- The state at module initialization (lines 38-53). -/
def initState : DriverState :=
  { _model := [], _hasEditor := false, _retryCount := 5, cacheModel := none,
    cacheDependencies := none, syncOn := false, leaked := 0, calls := 0 }

/-- Milliseconds between sync ticks (line 44); timing is not otherwise
modelled. -/
def _syncFrequency : Nat := 500

/-- Stand-in for the bundled remote driver script source loaded with the
`text!` plugin (line 32); its content is opaque to the local driver. -/
def LiveEditorRemoteDriver : String := "<LiveEditorRemoteDriver.js source>"

/-- Result of a driver run: final state, event trace, caller-visible value. -/
abbrev RunResult := DriverState × List Ev × RetVal

/-- One `_call` round-trip (lines 62-84): query the oracle at the current
call index, record the issue/completion events.  When the inspector is
disconnected the promise is rejected without any remote round-trip, so no
issue event is recorded. -/
def callRemote (o : Oracle) (st : DriverState) (c : RCall) :
    DriverState × List Ev × CallOut :=
  let out := o st.calls c
  let st1 := { st with calls := st.calls + 1 }
  match out with
  | .ok pv => (st1, [.issue c, .complete c], .ok pv)
  | .notConnected => (st1, [], .notConnected)
  | .thrown d => (st1, [.issue c, .failed c], .thrown d)

/-- `_stopSyncLoop` (lines 191-193): clears the most recently stored interval
handle; leaked intervals are unaffected. -/
def _stopSyncLoop (st : DriverState) : DriverState := { st with syncOn := false }

/-- `_startSyncLoop` (lines 187-189): schedules a new interval and overwrites
`_syncInterval`; if an interval was already scheduled its handle is lost and
it keeps firing forever (counted in `leaked`). -/
def _startSyncLoop (st : DriverState) : DriverState :=
  { st with leaked := st.leaked + (if st.syncOn then 1 else 0), syncOn := true }

/-- `_reset` (lines 181-185): stop the sync loop, clear the editor flag and
the snapshot.  The `_cache` object is untouched. -/
def _reset (st : DriverState) : DriverState :=
  { _stopSyncLoop st with _hasEditor := false, _model := [] }

/-- The snapshot keys against which `_setup`/`_update` compare the requested
target (lines 108 and 150): `_model.selector` and `_model.property`. -/
def selKey : String := "selector"

/-- See `selKey`. -/
def propKey : String := "property"

/-- JavaScript loose equality `==` (line 108) between a string attribute and
a snapshot entry.  An absent entry (`undefined`) is never equal to a string;
a string entry compares by string equality.  Snapshot entries of other JSON
shapes do not occur in the compared positions (the remote model echoes the
string attributes it was set up with) and are modelled as unequal. -/
def jsLooseEq (s : String) : Option JVal → Bool
  | some (.jstr s2) => s == s2
  | _ => false

/-- JavaScript strict equality `===` (used negated as `!==` at line 150)
between a string attribute and a snapshot entry; exact: a string is strictly
equal only to an equal string, never to `undefined` or another shape. -/
def jsStrictEq (s : String) : Option JVal → Bool
  | some (.jstr s2) => s == s2
  | _ => false

/-- The regular expression `/Cannot call method/` of line 228; it contains no
metacharacters, so `.test` is a substring test. -/
def lostNeedle : String := "Cannot call method"

/-- Occurrence of `needle` as a contiguous run inside a character list; the
behaviour of `.test` for a metacharacter-free regular expression. -/
def subListOccurs (needle : List Char) : List Char → Bool
  | [] => needle.isEmpty
  | c :: rest => needle.isPrefixOf (c :: rest) || subListOccurs needle rest

/-- The classification test of `_whenRemoteCallFailed` (line 228):
`result && result.description && /Cannot call method/.test(result.description)`.
A missing result, a missing description or a falsy (empty) description fails
the truthiness guards; otherwise the description is searched for the
pattern. -/
def lostContextPattern : Option Diagnostic → Bool
  | some d =>
    match d.description with
    | some s => (s != "") && subListOccurs lostNeedle.toList s.toList
    | none => false
  | none => false

/-- The per-key test of the merge loop (line 211):
`!_model[key] || !_.isEqual(_model[key], data[key])` — the key is (re)written
when it is absent, when its current value is JS-falsy, or when it differs by
deep equality. -/
def mergeCond (m : Snapshot) (kv : String × JVal) : Bool :=
  match getKey m kv.1 with
  | none => true
  | some w => !truthy w || !jeq w kv.2

/-- The merge loop of `_whenGetRemoteModel` (lines 210-215): fold the polled
mapping into the snapshot left to right, overwriting each key for which
`mergeCond` holds and recording whether anything was written. -/
def mergeModel : Snapshot → List (String × JVal) → Snapshot × Bool
  | m, [] => (m, false)
  | m, kv :: rest =>
    if mergeCond m kv then
      let res := mergeModel (setKey m kv.1 kv.2) rest
      (res.1, true)
    else
      mergeModel m rest

/-- The failure raised inside `_whenGetRemoteModel`: the `TypeError` thrown
for a missing or non-string poll result (line 203), or the `SyntaxError`
thrown by `JSON.parse` on an unparsable string (line 206).  Both are
malformed-model failures. -/
inductive ModelFail where
  | malformedModel
deriving Repr, DecidableEq

/-- `_whenGetRemoteModel` (lines 201-221) as a function of the poll outcome
and the current snapshot: validation and parse failures throw; otherwise the
polled mapping is merged into the snapshot and the changed flag decides
whether `modelChange` fires. -/
def _whenGetRemoteModel : PollValue → Snapshot → Except ModelFail (Snapshot × Bool)
  | .missing, _ => .error .malformedModel
  | .badValue, _ => .error .malformedModel
  | .unparsable, _ => .error .malformedModel
  | .parsed data, m => .ok (mergeModel m data)

/-- `_remove` (lines 166-176): a bare `return;` (JavaScript `undefined`) when
no editor is set up; otherwise reset local state and issue the remote
`remove()` call, whose promise is returned as-is with no failure handler
attached. -/
def _remove (o : Oracle) (st : DriverState) : RunResult :=
  if st._hasEditor = false then
    (st, [], .undef)
  else
    let st1 := _reset st
    match callRemote o st1 .rremove with
    | (st2, tr, .ok _) => (st2, tr, .resolvedVal)
    | (st2, tr, .notConnected) => (st2, tr, .rejectedWith none)
    | (st2, tr, .thrown d) => (st2, tr, .rejectedWith (some d))

/-- `_init` (lines 271-280): concatenate the bundled remote driver source
with the supplied providers, cache the resulting dependency list, emit the
`init` notification, and evaluate the joined scripts as one remote call. -/
def _init (o : Oracle) (st : DriverState) (providers : Option (List String)) :
    RunResult :=
  let scripts := LiveEditorRemoteDriver :: providers.getD []
  let st1 := { st with cacheDependencies := some scripts }
  match callRemote o st1 (.rinject scripts) with
  | (st2, tr, .ok _) => (st2, .initNote :: tr, .resolvedVal)
  | (st2, tr, .notConnected) => (st2, .initNote :: tr, .rejectedWith none)
  | (st2, tr, .thrown d) => (st2, .initNote :: tr, .rejectedWith (some d))

mutual

/-- `_setup` (lines 96-120).  `_cache.model = _cache.model || model` keeps an
existing cached target; when an editor exists and the requested selector and
property loosely equal the snapshot entries, the call collapses to
`_update`; otherwise the remote `setup` call is issued and on success the
sync loop is started and the editor flag set.  Failures are routed to
`_whenRemoteCallFailed`; `.fail` leaves the returned promise rejected. -/
def _setup : Nat → Oracle → DriverState → EditTarget → Except Fault RunResult
  | 0, _, _, _ => .error .fuelOut
  | fuel + 1, o, st, t =>
    let st1 := { st with cacheModel := (st.cacheModel).orElse (fun _ => some t) }
    if st1._hasEditor &&
       jsLooseEq t.selector (getKey st1._model selKey) &&
       jsLooseEq t.property (getKey st1._model propKey) then
      _update fuel o st1 t
    else
      match callRemote o st1 (.rsetup t) with
      | (st2, tr, .ok _) =>
        let st3 := { _startSyncLoop st2 with _hasEditor := true }
        .ok (st3, tr, .resolvedEmpty)
      | (st2, tr, .notConnected) =>
        match _whenRemoteCallFailed fuel o st2 none with
        | .ok (st3, tr2, _) => .ok (st3, tr ++ tr2, .rejectedWith none)
        | .error e => .error e
      | (st2, tr, .thrown d) =>
        match _whenRemoteCallFailed fuel o st2 (some d) with
        | .ok (st3, tr2, _) => .ok (st3, tr ++ tr2, .rejectedWith (some d))
        | .error e => .error e

/-- `_update` (lines 132-159).  With no editor the call delegates to
`_setup`.  Otherwise the target is cached unconditionally; if its selector or
property strictly differs from the snapshot entries the editor is torn down
(`_remove`) and, once the remote remove has completed, a fresh `_setup` is
issued; on a matching target a remote `update` call is made, failures routed
to `_whenRemoteCallFailed`. -/
def _update : Nat → Oracle → DriverState → EditTarget → Except Fault RunResult
  | 0, _, _, _ => .error .fuelOut
  | fuel + 1, o, st, t =>
    if st._hasEditor = false then
      _setup fuel o st t
    else
      let st1 := { st with cacheModel := some t }
      if !(jsStrictEq t.selector (getKey st1._model selKey)) ||
         !(jsStrictEq t.property (getKey st1._model propKey)) then
        match _remove o st1 with
        | (st2, tr1, .resolvedVal) =>
          match _setup fuel o st2 t with
          | .ok (st3, tr2, r2) => .ok (st3, tr1 ++ tr2, r2)
          | .error e => .error e
        | (st2, tr1, .resolvedEmpty) =>
          match _setup fuel o st2 t with
          | .ok (st3, tr2, r2) => .ok (st3, tr1 ++ tr2, r2)
          | .error e => .error e
        | (st2, tr1, .rejectedWith d) => .ok (st2, tr1, .rejectedWith d)
        | (_, _, .undef) => .error .undefDeref
      else
        match callRemote o st1 (.rupdate t) with
        | (st2, tr, .ok _) => .ok (st2, tr, .resolvedVal)
        | (st2, tr, .notConnected) =>
          match _whenRemoteCallFailed fuel o st2 none with
          | .ok (st3, tr2, _) => .ok (st3, tr ++ tr2, .rejectedWith none)
          | .error e => .error e
        | (st2, tr, .thrown d) =>
          match _whenRemoteCallFailed fuel o st2 (some d) with
          | .ok (st3, tr2, _) => .ok (st3, tr ++ tr2, .rejectedWith (some d))
          | .error e => .error e

/-- `_whenRemoteCallFailed` (lines 227-235): a diagnostic whose description
matches the missing-namespace pattern triggers a reconnect; any other
failure clears the cached pending target and forces `_remove()`. -/
def _whenRemoteCallFailed :
    Nat → Oracle → DriverState → Option Diagnostic → Except Fault RunResult
  | 0, _, _, _ => .error .fuelOut
  | fuel + 1, o, st, result =>
    if lostContextPattern result then
      _reconnect fuel o st
    else
      let st1 := { st with cacheModel := none }
      .ok (_remove o st1)

/-- `_reconnect` (lines 248-265): with an exhausted budget the attempt is
abandoned (rejected) without touching the budget or the remote side;
otherwise the budget is decremented and the cached dependencies re-injected.
On injection success `onPostInit` resets local state and re-issues
`_setup(_cache.model)` — dereferencing `undefined` when the cache was
cleared.  In the source `_retryCount = 5` executes after `_setup` returns but
before any of `_setup`'s asynchronous continuations run; the reset is
applied here before the inlined continuations so that they observe the
restored budget, as they do in the source. -/
def _reconnect : Nat → Oracle → DriverState → Except Fault RunResult
  | 0, _, _ => .error .fuelOut
  | fuel + 1, o, st =>
    if st._retryCount = 0 then
      .ok (st, [], .rejectedWith none)
    else
      let st1 := { st with _retryCount := st._retryCount - 1 }
      match _init o st1 st1.cacheDependencies with
      | (st2, tr1, .resolvedVal) =>
        let st3 := { _reset st2 with _retryCount := 5 }
        match st3.cacheModel with
        | none => .error .undefDeref
        | some tc =>
          match _setup fuel o st3 tc with
          | .ok (st4, tr2, _) => .ok (st4, tr1 ++ tr2, .resolvedEmpty)
          | .error e => .error e
      | (st2, tr1, .resolvedEmpty) =>
        let st3 := { _reset st2 with _retryCount := 5 }
        match st3.cacheModel with
        | none => .error .undefDeref
        | some tc =>
          match _setup fuel o st3 tc with
          | .ok (st4, tr2, _) => .ok (st4, tr1 ++ tr2, .resolvedEmpty)
          | .error e => .error e
      | (st2, tr1, .rejectedWith d) => .ok (st2, tr1, .rejectedWith d)
      | (_, _, .undef) => .error .undefDeref

end

/-- `_onSyncTick` (lines 195-199): one poll of the remote model.  On a
resolved call the result is handed to `_whenGetRemoteModel`; the merged
snapshot is stored and `modelChange` emitted when anything changed.
Modelled from the spec: the promise library is an external collaborator; per
the propagation policy, a failure thrown inside the `.then` handler
(`MalformedModel`) is routed to the `.fail` handler `_whenRemoteCallFailed`
as a rejection whose reason is the thrown error object, which carries no
`description` property. -/
def _onSyncTick (fuel : Nat) (o : Oracle) (st : DriverState) :
    Except Fault RunResult :=
  match callRemote o st .rgetModel with
  | (st1, tr, .ok pv) =>
    match _whenGetRemoteModel pv st1._model with
    | .ok (m2, changed) =>
      let st2 := { st1 with _model := m2 }
      .ok (st2, tr ++ (if changed then [.modelChange m2] else []), .resolvedEmpty)
    | .error _ =>
      match _whenRemoteCallFailed fuel o st1 (some { description := none }) with
      | .ok (st2, tr2, _) =>
        .ok (st2, tr ++ tr2, .rejectedWith (some { description := none }))
      | .error e => .error e
  | (st1, tr, .notConnected) =>
    match _whenRemoteCallFailed fuel o st1 none with
    | .ok (st2, tr2, _) => .ok (st2, tr ++ tr2, .rejectedWith none)
    | .error e => .error e
  | (st1, tr, .thrown d) =>
    match _whenRemoteCallFailed fuel o st1 (some d) with
    | .ok (st2, tr2, _) => .ok (st2, tr ++ tr2, .rejectedWith (some d))
    | .error e => .error e

/-! ### Fixtures and trace observers used by the theorems below -/

/-- A concrete edit target. -/
def tBox : EditTarget :=
  { selector := "#box", property := "shape-outside", value := "circle(40%)" }

/-- A second concrete edit target, differing from `tBox` in selector and
property. -/
def tHero : EditTarget :=
  { selector := ".hero", property := "shape-inside", value := "ellipse(50%)" }

/-- An environment in which every remote call resolves; polls return an empty
model object. -/
def oAllOk : Oracle := fun _ _ => .ok (.parsed [])

/-- Final state of a run (initial state as a placeholder on a fault). -/
def stOf : Except Fault RunResult → DriverState
  | .ok (st, _, _) => st
  | .error _ => initState

/-- Event trace of a run (empty on a fault). -/
def trOf : Except Fault RunResult → List Ev
  | .ok (_, tr, _) => tr
  | .error _ => []

/-- Observer: the event is the issue of a remote `remove()` call. -/
def isRemoveIssue : Ev → Bool
  | .issue .rremove => true
  | _ => false

/-- Observer: the event is the issue of a remote `setup(...)` call. -/
def isSetupIssue : Ev → Bool
  | .issue (.rsetup _) => true
  | _ => false

/-- Observer: the event is the issue of a dependency-injection call. -/
def isInjectIssue : Ev → Bool
  | .issue (.rinject _) => true
  | _ => false

/-- Observer: the event is a `modelChange` notification. -/
def isModelChangeEv : Ev → Bool
  | .modelChange _ => true
  | _ => false

/-! ### Helper lemmas about the snapshot merge -/

theorem getKey_setKey_self (m : Snapshot) (key : String) (v : JVal) :
    getKey (setKey m key v) key = some v := by
  induction m with
  | nil => simp [setKey, getKey]
  | cons kv rest ih =>
    obtain ⟨a, w⟩ := kv
    by_cases h : a = key
    · simp [setKey, getKey, h]
    · simp [setKey, getKey, h, ih]

theorem getKey_setKey_ne (m : Snapshot) {k key : String} (v : JVal)
    (h : k ≠ key) : getKey (setKey m key v) k = getKey m k := by
  induction m with
  | nil => simp [setKey, getKey, Ne.symm h]
  | cons kv rest ih =>
    obtain ⟨a, w⟩ := kv
    by_cases hak : a = key
    · simp [setKey, getKey, hak, Ne.symm h]
    · by_cases hak2 : a = k
      · simp [setKey, getKey, hak, hak2, h]
      · simp [setKey, getKey, hak, hak2, ih]

theorem getKey_setKey_isSome (m : Snapshot) (k key : String) (v : JVal)
    (h : (getKey m k).isSome = true) :
    (getKey (setKey m key v) k).isSome = true := by
  by_cases hk : k = key
  · subst hk; rw [getKey_setKey_self]; rfl
  · rw [getKey_setKey_ne m v hk]; exact h

/-- The changed flag of a merge is the disjunction of the per-key conditions
against the starting snapshot. -/
theorem mergeModel_flag (m : Snapshot) (data : List (String × JVal)) :
    (mergeModel m data).2 = data.any (fun kv => mergeCond m kv) := by
  induction data with
  | nil => simp [mergeModel]
  | cons kv rest ih =>
    by_cases h : mergeCond m kv
    · simp [mergeModel, h]
    · simp [mergeModel, h, ih]

/-- Keys not mentioned by the polled mapping keep their snapshot entry. -/
theorem mergeModel_not_mem (data : List (String × JVal)) (m : Snapshot)
    (k : String) (h : k ∉ data.map Prod.fst) :
    getKey (mergeModel m data).1 k = getKey m k := by
  induction data generalizing m with
  | nil => simp [mergeModel]
  | cons kv rest ih =>
    simp only [List.map_cons, List.mem_cons, not_or] at h
    by_cases hc : mergeCond m kv
    · simp only [mergeModel, hc, if_true]
      rw [ih _ h.2, getKey_setKey_ne _ _ h.1]
    · simp only [mergeModel, hc, if_false]
      exact ih _ h.2

/-- Merging preserves presence of a key. -/
theorem mergeModel_isSome_mono (data : List (String × JVal)) (m : Snapshot)
    (k : String) (h : (getKey m k).isSome = true) :
    (getKey (mergeModel m data).1 k).isSome = true := by
  induction data generalizing m with
  | nil => simpa [mergeModel]
  | cons kv rest ih =>
    by_cases hc : mergeCond m kv
    · simp only [mergeModel, hc, if_true]
      exact ih _ (getKey_setKey_isSome _ _ _ _ h)
    · simp only [mergeModel, hc, if_false]
      exact ih _ h

/-- Every key of the polled mapping is present in the merged snapshot. -/
theorem mergeModel_mem_isSome (data : List (String × JVal)) (m : Snapshot)
    (k : String) (v : JVal) (h : (k, v) ∈ data) :
    (getKey (mergeModel m data).1 k).isSome = true := by
  induction data generalizing m with
  | nil => cases h
  | cons kv rest ih =>
    rcases List.mem_cons.mp h with h1 | h2
    · by_cases hc : mergeCond m kv
      · simp only [mergeModel, hc, if_true]
        exact mergeModel_isSome_mono _ _ _
          (by rw [← h1] at hc ⊢; rw [getKey_setKey_self]; rfl)
      · simp only [mergeModel, hc, if_false]
        have : (getKey m k).isSome = true := by
          rw [← h1] at hc
          simp only [mergeCond] at hc
          cases hg : getKey m k with
          | none => rw [hg] at hc; simp at hc
          | some w => rfl
        exact mergeModel_isSome_mono _ _ _ this
    · by_cases hc : mergeCond m kv
      · simp only [mergeModel, hc, if_true]
        exact ih _ h2
      · simp only [mergeModel, hc, if_false]
        exact ih _ h2

/-- When every polled key already holds a JS-truthy, deeply equal value, the
merge is the identity and the changed flag stays false. -/
theorem mergeModel_id (data : List (String × JVal)) (m : Snapshot)
    (h : ∀ kv ∈ data, mergeCond m kv = false) :
    mergeModel m data = (m, false) := by
  induction data with
  | nil => rfl
  | cons kv rest ih =>
    have hkv : mergeCond m kv = false := h kv (List.mem_cons_self kv rest)
    simp only [mergeModel, hkv, if_false]
    exact ih fun kv2 h2 => h kv2 (List.mem_cons_of_mem kv h2)

/-- A sync tick whose poll resolves to a parsed mapping: the snapshot becomes
the merge, and `modelChange` carries the merged snapshot exactly when the
changed flag is set. -/
theorem onSyncTick_parsed (fuel : Nat) (o : Oracle) (st : DriverState)
    (data : List (String × JVal))
    (h : o st.calls .rgetModel = .ok (.parsed data)) :
    _onSyncTick fuel o st =
      .ok ({ st with _model := (mergeModel st._model data).1, calls := st.calls + 1 },
           [.issue .rgetModel, .complete .rgetModel] ++
             (if (mergeModel st._model data).2 then
               [.modelChange (mergeModel st._model data).1] else []),
           .resolvedEmpty) := by
  simp only [_onSyncTick, callRemote, h, _whenGetRemoteModel]

/-! ### C3 — sync merge -/

/-- A state in which an editor is active and the snapshot holds the key `n`
with the JS-falsy value `0`. -/
def stZero : DriverState :=
  { initState with
    _model := [(("n"), .jnum 0)], _hasEditor := true,
    syncOn := true, cacheModel := some tBox }

/-- An environment whose poll returns `{n: 0}`. -/
def oPollZero : Oracle := fun _ _ => .ok (.parsed [(("n"), .jnum 0)])

/-- C3, counterexample: re-polling `{n: 0}` over the snapshot `{n: 0}` leaves
the snapshot unchanged — no key is added or changed — yet the changed flag is
set and a `modelChange` notification fires, because the merge loop treats any
JS-falsy existing entry (`!_model[key]`) as changed.  This refutes the
claimed "emitted exactly when at least one key was added or changed". -/
theorem c3_counterexample :
    mergeModel [(("n"), .jnum 0)] [(("n"), .jnum 0)] = ([(("n"), .jnum 0)], true) ∧
    (stOf (_onSyncTick 1 oPollZero stZero))._model = stZero._model ∧
    (trOf (_onSyncTick 1 oPollZero stZero)).any isModelChangeEv = true :=
  ⟨rfl, rfl, rfl⟩

/-- C3, amended: on a successful sync tick the polled mapping is merged
one-directionally into the snapshot — every polled key ends up present, keys
only in the old snapshot are kept — and a `modelChange` notification carrying
the full merged snapshot is emitted exactly when some polled key is absent
from the snapshot, holds a JS-falsy snapshot value, or differs from it by
deep equality.  The spec example `{a:1,b:2}` merged with `{b:3,c:4}` yields
`{a:1,b:3,c:4}` with the flag set. -/
theorem c3_sync_merge_additive :
    (∀ (fuel : Nat) (o : Oracle) (st : DriverState) (data : List (String × JVal)),
      o st.calls .rgetModel = .ok (.parsed data) →
      ∀ stf tr r, _onSyncTick fuel o st = .ok (stf, tr, r) →
        stf._model = (mergeModel st._model data).1 ∧
        (∀ k v, (k, v) ∈ data → (getKey stf._model k).isSome = true) ∧
        (∀ k, k ∉ data.map Prod.fst → getKey stf._model k = getKey st._model k) ∧
        tr.any isModelChangeEv = (mergeModel st._model data).2 ∧
        (mergeModel st._model data).2 = data.any (fun kv => mergeCond st._model kv) ∧
        tr = [.issue .rgetModel, .complete .rgetModel] ++
          (if (mergeModel st._model data).2 then [.modelChange stf._model] else [])) ∧
    mergeModel [(("a"), .jnum 1), (("b"), .jnum 2)]
        [(("b"), .jnum 3), (("c"), .jnum 4)] =
      ([(("a"), .jnum 1), (("b"), .jnum 3), (("c"), .jnum 4)], true) := by
  constructor
  · intro fuel o st data h stf tr r hrun
    rw [onSyncTick_parsed fuel o st data h] at hrun
    simp only [Except.ok.injEq, Prod.mk.injEq] at hrun
    obtain ⟨hstf, htr, -⟩ := hrun
    subst hstf htr
    refine ⟨rfl, ?_, ?_, ?_, mergeModel_flag _ _, rfl⟩
    · intro k v hkv
      exact mergeModel_mem_isSome data st._model k v hkv
    · intro k hk
      exact mergeModel_not_mem data st._model k hk
    · cases hflag : (mergeModel st._model data).2 <;>
        simp [isModelChangeEv, hflag]
  · rfl

/-- The spec example state `{a:1, b:2}` with an active editor. -/
def stAB : DriverState :=
  { initState with
    _model := [(("a"), .jnum 1), (("b"), .jnum 2)],
    _hasEditor := true, syncOn := true, cacheModel := some tBox }

/-- An environment whose poll returns `{b:3, c:4}`. -/
def oPollBC : Oracle := fun _ _ => .ok (.parsed [(("b"), .jnum 3), (("c"), .jnum 4)])

/-- C3, witness: the amended theorem applied to the spec example. -/
theorem c3_sync_merge_additive_witness :
    (stOf (_onSyncTick 1 oPollBC stAB))._model =
      [(("a"), .jnum 1), (("b"), .jnum 3), (("c"), .jnum 4)] ∧
    (getKey (stOf (_onSyncTick 1 oPollBC stAB))._model (("c"))).isSome = true ∧
    (trOf (_onSyncTick 1 oPollBC stAB)).any isModelChangeEv = true := by
  have h := c3_sync_merge_additive.1 1 oPollBC stAB
    [(("b"), .jnum 3), (("c"), .jnum 4)] rfl
    (stOf (_onSyncTick 1 oPollBC stAB)) (trOf (_onSyncTick 1 oPollBC stAB))
    .resolvedEmpty rfl
  refine ⟨?_, ?_, ?_⟩
  · rw [h.1]; rfl
  · exact h.2.1 (("c")) (.jnum 4) (by simp)
  · rw [h.2.2.2.1]; rfl

/-! ### C6 — identical re-poll -/

/-- A state in which an editor is active and the snapshot holds the key
`flag` with the JS-falsy empty string. -/
def stFalsy : DriverState :=
  { initState with
    _model := [(("flag"), .jstr (""))], _hasEditor := true,
    syncOn := true, cacheModel := some tBox }

/-- An environment whose poll returns the empty-string entry again. -/
def oPollFalsy : Oracle := fun _ _ => .ok (.parsed [(("flag"), .jstr (""))])

/-- C6, counterexample: the polled value is deeply equal to the snapshot
entry (`jeq` holds) and the tick leaves the snapshot unchanged, yet a
`modelChange` notification is emitted, because the existing entry is JS-falsy
and `!_model[key]` marks it changed.  Re-polling an identical model is
therefore not always a no-op. -/
theorem c6_counterexample :
    jeq (.jstr ("")) (.jstr ("")) = true ∧
    (stOf (_onSyncTick 1 oPollFalsy stFalsy))._model = stFalsy._model ∧
    (trOf (_onSyncTick 1 oPollFalsy stFalsy)).any isModelChangeEv = true :=
  ⟨rfl, rfl, rfl⟩

/-- C6, amended: when every polled key already holds a deeply equal **and
JS-truthy** snapshot value, the sync tick leaves the snapshot unchanged and
emits no `modelChange` — the whole tick only advances the call counter. -/
theorem c6_identical_poll_noop (fuel : Nat) (o : Oracle) (st : DriverState)
    (data : List (String × JVal))
    (hdata : ∀ kv ∈ data, ∃ w, getKey st._model kv.1 = some w ∧
      truthy w = true ∧ jeq w kv.2 = true)
    (h : o st.calls .rgetModel = .ok (.parsed data)) :
    _onSyncTick fuel o st =
      .ok ({ st with calls := st.calls + 1 },
           [.issue .rgetModel, .complete .rgetModel], .resolvedEmpty) := by
  have hid : mergeModel st._model data = (st._model, false) :=
    mergeModel_id data st._model (fun kv hkv => by
      obtain ⟨w, hw, ht, he⟩ := hdata kv hkv
      simp [mergeCond, hw, ht, he])
  rw [onSyncTick_parsed fuel o st data h, hid]
  simp

/-- An environment whose poll returns `{a:1, b:3, c:4}`. -/
def oPollABC : Oracle :=
  fun _ _ => .ok (.parsed [(("a"), .jnum 1), (("b"), .jnum 3), (("c"), .jnum 4)])

/-- The merged spec-example state `{a:1, b:3, c:4}`. -/
def stABC : DriverState :=
  { initState with
    _model := [(("a"), .jnum 1), (("b"), .jnum 3), (("c"), .jnum 4)],
    _hasEditor := true, syncOn := true, cacheModel := some tBox }

/-- C6, witness: re-polling `{a:1,b:3,c:4}` over the identical snapshot
produces no `modelChange`, per the amended theorem. -/
theorem c6_identical_poll_noop_witness :
    _onSyncTick 1 oPollABC stABC =
      .ok ({ stABC with calls := 1 },
           [.issue .rgetModel, .complete .rgetModel], .resolvedEmpty) := by
  have h := c6_identical_poll_noop 1 oPollABC stABC
    [(("a"), .jnum 1), (("b"), .jnum 3), (("c"), .jnum 4)]
    (by intro kv hkv
        fin_cases hkv
        · exact ⟨.jnum 1, rfl, rfl, rfl⟩
        · exact ⟨.jnum 3, rfl, rfl, rfl⟩
        · exact ⟨.jnum 4, rfl, rfl, rfl⟩)
    rfl
  exact h

/-! ### C5 — failure classification -/

/-- C5: a remote-call failure whose diagnostic description matches the
missing-namespace pattern is classified `LostContext` and handed to the
reconnect supervisor; any other failure — including one with no diagnostic or
no description — clears the cached pending target and forces `_remove()`,
with no retry.  The pattern is the substring test for the fixed text of the
metacharacter-free regex, guarded by the truthiness of the description. -/
theorem c5_failure_classification :
    (∀ (fuel : Nat) (o : Oracle) (st : DriverState) (result : Option Diagnostic),
      (lostContextPattern result = true →
        _whenRemoteCallFailed (fuel + 1) o st result = _reconnect fuel o st) ∧
      (lostContextPattern result = false →
        _whenRemoteCallFailed (fuel + 1) o st result =
          .ok (_remove o { st with cacheModel := none }))) ∧
    lostContextPattern none = false ∧
    (∀ d : Diagnostic, d.description = none → lostContextPattern (some d) = false) ∧
    (∀ (d : Diagnostic) (s : String), d.description = some s →
      lostContextPattern (some d) =
        ((s != "") && subListOccurs lostNeedle.toList s.toList)) := by
  refine ⟨?_, rfl, ?_, ?_⟩
  · intro fuel o st result
    constructor <;> intro h <;> simp [_whenRemoteCallFailed, h]
  · intro d hd
    simp [lostContextPattern, hd]
  · intro d s hd
    simp [lostContextPattern, hd]

/-- C5, witness: a failure with a non-matching description takes the
remote-fault path at a concrete state, and one with the missing-namespace
text takes the reconnect path. -/
theorem c5_failure_classification_witness :
    _whenRemoteCallFailed (1 + 1) oAllOk initState
        (some { description := some ("boom") }) =
      .ok (_remove oAllOk { initState with cacheModel := none }) ∧
    _whenRemoteCallFailed (1 + 1) oAllOk initState
        (some { description := some ("TypeError: Cannot call method getModel of undefined") }) =
      _reconnect 1 oAllOk initState :=
  ⟨(c5_failure_classification.1 1 oAllOk initState
      (some { description := some ("boom") })).2 rfl,
   (c5_failure_classification.1 1 oAllOk initState
      (some { description := some ("TypeError: Cannot call method getModel of undefined") })).1 rfl⟩

/-! ### C8 — remove with no editor -/

/-- C8, amended: `_remove` on a session with no editor is a no-op — no remote
call, state untouched — but it returns JavaScript `undefined` (a bare
`return;`), not an already-resolved empty promise. -/
theorem c8_remove_noop (o : Oracle) (st : DriverState)
    (h : st._hasEditor = false) :
    _remove o st = (st, [], .undef) := by
  simp [_remove, h]

/-- C8, witness: the amended theorem at the initial state. -/
theorem c8_remove_noop_witness :
    _remove oAllOk initState = (initState, [], RetVal.undef) :=
  c8_remove_noop oAllOk initState rfl

/-- C8, counterexample: with no editor `_remove` returns `undefined`, which
is not a resolved result of either form — so the claimed "returns an
already-resolved empty result" is false (a caller chaining on the result
would dereference `undefined`). -/
theorem c8_counterexample :
    _remove oAllOk initState = (initState, [], RetVal.undef) ∧
    RetVal.undef ≠ RetVal.resolvedEmpty ∧
    RetVal.undef ≠ RetVal.resolvedVal :=
  ⟨rfl, by decide, by decide⟩

/-! ### C1, C2, C7 — setup / update lifecycle -/

/-- The state after a first successful `setup(tBox)` from the initial state:
editor active, sync loop on, target cached — but the snapshot is still empty,
because only a sync tick ever writes it. -/
def stA : DriverState := stOf (_setup 9 oAllOk initState tBox)

/-- C1, counterexample: in the Active state reached by a successful
`setup(tBox)` before any sync tick, the snapshot is empty, so the collapse
test (which compares against `_model.selector` / `_model.property`, not
against the requested target) fails even for the very target that is active:
`setup(tBox)` issues a fresh remote `setup` instead of delegating to
`update(tBox)` — whose own snapshot comparison would have torn the editor
down with a `remove`.  The two calls do not behave identically. -/
theorem c1_counterexample :
    stA._hasEditor = true ∧ stA.cacheModel = some tBox ∧ stA._model = [] ∧
    (trOf (_setup 9 oAllOk stA tBox)).countP isRemoveIssue = 0 ∧
    (trOf (_setup 9 oAllOk stA tBox)).countP isSetupIssue = 1 ∧
    (trOf (_update 8 oAllOk stA tBox)).countP isRemoveIssue = 1 ∧
    _setup 9 oAllOk stA tBox ≠ _update 8 oAllOk stA tBox := by
  refine ⟨rfl, rfl, rfl, rfl, rfl, rfl, ?_⟩
  intro h
  have h2 := congrArg (fun r => (trOf r).countP isRemoveIssue) h
  exact absurd h2 (by decide)

/-- C1, amended: the collapse is keyed on the snapshot entries
`_model.selector` / `_model.property`.  When an editor is active and those
entries hold exactly the requested selector and property (as they do once a
sync tick has echoed the active target), `setup(t)` delegates to `update(t)`
— identical state, trace and result for every environment — and the
delegated call issues a single remote `update`, no `remove`: a value
difference never forces a teardown. -/
theorem c1_setup_collapses_to_update (o : Oracle) (st : DriverState)
    (t : EditTarget)
    (h1 : st._hasEditor = true)
    (h2 : getKey st._model selKey = some (.jstr t.selector))
    (h3 : getKey st._model propKey = some (.jstr t.property)) :
    (∀ fuel, _setup (fuel + 1) o st t = _update fuel o st t) ∧
    (∀ fuel pv, o st.calls (.rupdate t) = .ok pv →
      _setup (fuel + 2) o st t =
        .ok ({ st with cacheModel := some t, calls := st.calls + 1 },
             [.issue (.rupdate t), .complete (.rupdate t)], .resolvedVal)) := by
  have hdel : ∀ fuel, _setup (fuel + 1) o st t = _update fuel o st t := by
    intro fuel
    match fuel with
    | 0 => simp [_setup, _update, h1, h2, h3, jsLooseEq]
    | g + 1 => simp [_setup, _update, h1, h2, h3, jsLooseEq, jsStrictEq]
  refine ⟨hdel, ?_⟩
  intro fuel pv hpv
  rw [hdel (fuel + 1)]
  simp [_update, h1, h2, h3, jsStrictEq, callRemote, hpv]

/-- A state whose snapshot has echoed the active target `tBox`, as a sync
tick leaves it. -/
def stSnap : DriverState :=
  { initState with
    _model := [((selKey), .jstr (tBox.selector)), ((propKey), .jstr (tBox.property))],
    _hasEditor := true, syncOn := true, cacheModel := some tBox }

/-- The active target with only its value changed. -/
def tBoxV2 : EditTarget := { tBox with value := "inset(10%)" }

/-- C1, witness: re-setup of the active (selector, property) with a new value
collapses to a plain remote `update`; no `remove` is issued. -/
theorem c1_setup_collapses_to_update_witness :
    _setup (0 + 2) oAllOk stSnap tBoxV2 =
      .ok ({ stSnap with cacheModel := some tBoxV2, calls := 1 },
           [.issue (.rupdate tBoxV2), .complete (.rupdate tBoxV2)], .resolvedVal) ∧
    (trOf (_setup (0 + 2) oAllOk stSnap tBoxV2)).countP isRemoveIssue = 0 := by
  refine ⟨?_, rfl⟩
  exact (c1_setup_collapses_to_update oAllOk stSnap tBoxV2 rfl rfl rfl).2
    0 (.parsed []) rfl

/-- C2, amended: when an editor is active and the requested target differs in
selector or property from the snapshot entries (the session's record of the
active remote editor), `update` tears down and re-creates: the event trace is
exactly one issued `remove`, its completion, then one issued `setup` and its
completion — the `setup` is only issued after the `remove` completed, never
interleaved. -/
theorem c2_target_switch_remove_then_setup (fuel : Nat) (o : Oracle)
    (st : DriverState) (t : EditTarget) (pv1 pv2 : PollValue)
    (h1 : st._hasEditor = true)
    (h2 : (jsStrictEq t.selector (getKey st._model selKey) &&
           jsStrictEq t.property (getKey st._model propKey)) = false)
    (h3 : o st.calls .rremove = .ok pv1)
    (h4 : o (st.calls + 1) (.rsetup t) = .ok pv2) :
    _update (fuel + 2) o st t =
      .ok ({ st with
              _model := [], _hasEditor := true, cacheModel := some t,
              syncOn := true, calls := st.calls + 2 },
           [.issue .rremove, .complete .rremove,
            .issue (.rsetup t), .complete (.rsetup t)], .resolvedEmpty) := by
  have h2' : (!(jsStrictEq t.selector (getKey st._model selKey)) ||
      !(jsStrictEq t.property (getKey st._model propKey))) = true := by
    rw [← Bool.not_and, h2]
    rfl
  simp only [_update, _setup, _remove, _reset, _stopSyncLoop, _startSyncLoop,
    callRemote, h1, h2', h3, h4]
  simp [h2', h3, h4]

/-- An environment whose poll reports a remote model whose selector no longer
matches the target the editor was set up with. -/
def oPollRenamed : Oracle :=
  fun _ _ => .ok (.parsed [((selKey), .jstr (".renamed")), ((propKey), .jstr (tBox.property))])

/-- The Active session after such a poll: the cached (requested) target is
still `tBox`, the snapshot says `.renamed`. -/
def stRenamed : DriverState := stOf (_onSyncTick 9 oPollRenamed stA)

/-- The target matching the polled snapshot but differing from the active
(requested, cached) target in selector. -/
def tX : EditTarget :=
  { selector := ".renamed", property := "shape-outside", value := "circle(40%)" }

/-- C2, counterexample: the session is Active with cached target `tBox`, and
`tX` differs from it in selector, so the claim demands exactly one remote
`remove` followed by one `setup`; but the code compares against the polled
snapshot, which matches `tX`, so `update(tX)` issues a single remote `update`
and no `remove` at all. -/
theorem c2_counterexample :
    stRenamed._hasEditor = true ∧ stRenamed.cacheModel = some tBox ∧
    tX.selector ≠ tBox.selector ∧
    _update 9 oAllOk stRenamed tX =
      .ok ({ stRenamed with cacheModel := some tX, calls := stRenamed.calls + 1 },
           [.issue (.rupdate tX), .complete (.rupdate tX)], .resolvedVal) ∧
    (trOf (_update 9 oAllOk stRenamed tX)).countP isRemoveIssue = 0 := by
  refine ⟨rfl, rfl, by decide, rfl, rfl⟩

/-- C2, witness: the amended theorem at a concrete Active state whose
snapshot echoes `tBox`, switching to the different target `tHero`. -/
theorem c2_target_switch_witness :
    _update (0 + 2) oAllOk stSnap tHero =
      .ok ({ stSnap with
              _model := [], _hasEditor := true,
              cacheModel := some tHero, syncOn := true, calls := 2 },
           [.issue .rremove, .complete .rremove,
            .issue (.rsetup tHero), .complete (.rsetup tHero)], .resolvedEmpty) := by
  exact c2_target_switch_remove_then_setup 0 oAllOk stSnap tHero
    (.parsed []) (.parsed []) rfl rfl rfl rfl

/-- The state after `setup(tBox)` succeeded and `remove()` was called: no
editor, but the cache still holds `tBox`. -/
def stR : DriverState := (_remove oAllOk stA).1

/-- C7, counterexample: after `setup(tBox)` and `remove()`, the cache still
holds `tBox` (`_reset` does not clear `_cache`); a fresh non-collapsing
`setup(tHero)` runs `_cache.model = _cache.model || model`, which keeps the
existing cached target — `cachedTarget` does **not** become the given
target. -/
theorem c7_counterexample :
    stR._hasEditor = false ∧ stR.cacheModel = some tBox ∧
    (stOf (_setup 9 oAllOk stR tHero)).cacheModel = some tBox ∧
    tBox ≠ tHero :=
  ⟨rfl, rfl, rfl, by decide⟩

/-- C7, amended: a non-collapsing `setup(target)` that reaches the remote
call stores `target` as the cached pending subject only when nothing is
cached; an existing cached target is preserved (`_cache.model || model`).
On success the sync loop starts and the editor flag is set. -/
theorem c7_setup_keeps_existing_cache (fuel : Nat) (o : Oracle)
    (st : DriverState) (t : EditTarget) (pv : PollValue)
    (hnc : (st._hasEditor &&
            jsLooseEq t.selector (getKey st._model selKey) &&
            jsLooseEq t.property (getKey st._model propKey)) = false)
    (hc : o st.calls (.rsetup t) = .ok pv) :
    _setup (fuel + 1) o st t =
      .ok ({ st with
              cacheModel := some (st.cacheModel.getD t),
              _hasEditor := true, syncOn := true,
              leaked := st.leaked + (if st.syncOn then 1 else 0),
              calls := st.calls + 1 },
           [.issue (.rsetup t), .complete (.rsetup t)], .resolvedEmpty) := by
  cases hcm : st.cacheModel with
  | none =>
    simp only [_setup, hcm, Option.orElse]
    simp only [callRemote, hc]
    simp_all [_startSyncLoop, Option.getD]
  | some t0 =>
    simp only [_setup, hcm, Option.orElse]
    simp only [callRemote, hc]
    simp_all [_startSyncLoop, Option.getD]

/-- C7, witness: the amended theorem at the initial state (nothing cached, so
the requested target is stored) — this is the state `stA`. -/
theorem c7_setup_keeps_existing_cache_witness :
    _setup (0 + 1) oAllOk initState tBox =
      .ok ({ initState with
              cacheModel := some tBox, _hasEditor := true,
              syncOn := true, calls := 1 },
           [.issue (.rsetup tBox), .complete (.rsetup tBox)], .resolvedEmpty) := by
  exact c7_setup_keeps_existing_cache 0 oAllOk initState tBox (.parsed []) rfl rfl

/-! ### C4 — reconnect budget -/

/-- `_remove` never touches the retry budget, for any environment. -/
theorem remove_preserves_retry (o : Oracle) (st : DriverState) :
    ((_remove o st).1)._retryCount = st._retryCount := by
  by_cases h : st._hasEditor = false
  · simp [_remove, h]
  · simp only [_remove, h, if_false, _reset, _stopSyncLoop, callRemote]
    rcases ho : o st.calls .rremove with pv | _ | d <;> simp [ho]

/-- `_init` never touches the retry budget, for any environment. -/
theorem init_preserves_retry (o : Oracle) (st : DriverState)
    (p : Option (List String)) :
    ((_init o st p).1)._retryCount = st._retryCount := by
  simp only [_init, callRemote]
  rcases ho : o st.calls (.rinject (LiveEditorRemoteDriver :: p.getD [])) with
    pv | _ | d <;> simp [ho]

/-- The remote-fault path of the failure handler (clear cache, force remove)
never touches the retry budget. -/
theorem remoteFault_preserves_retry (fuel : Nat) (o : Oracle)
    (st : DriverState) (d : Option Diagnostic)
    (hd : lostContextPattern d = false) :
    ∀ stf tr r, _whenRemoteCallFailed (fuel + 1) o st d = .ok (stf, tr, r) →
      stf._retryCount = st._retryCount := by
  intro stf tr r hrun
  simp only [_whenRemoteCallFailed, hd, Bool.false_eq_true, if_false,
    Except.ok.injEq] at hrun
  have := remove_preserves_retry o { st with cacheModel := none }
  rw [hrun] at this
  exact this

/-- A successful same-target `update` (the collapse target of C1): one remote
`update` call, cache overwritten, nothing else changed. -/
theorem update_match_ok (fuel : Nat) (o : Oracle) (st : DriverState)
    (t : EditTarget) (pv : PollValue)
    (h1 : st._hasEditor = true)
    (h2 : (jsStrictEq t.selector (getKey st._model selKey) &&
           jsStrictEq t.property (getKey st._model propKey)) = true)
    (hc : o st.calls (.rupdate t) = .ok pv) :
    _update (fuel + 1) o st t =
      .ok ({ st with cacheModel := some t, calls := st.calls + 1 },
           [.issue (.rupdate t), .complete (.rupdate t)], .resolvedVal) := by
  obtain ⟨h2a, h2b⟩ : jsStrictEq t.selector (getKey st._model selKey) = true ∧
      jsStrictEq t.property (getKey st._model propKey) = true := by
    simpa using h2
  simp [_update, h1, h2a, h2b, callRemote, hc]

/-- A successful non-collapsing `setup`: one remote `setup` call, sync loop
started, editor flag set; see also C7 for the cache behaviour. -/
theorem setup_noncollapse_ok (fuel : Nat) (o : Oracle) (st : DriverState)
    (t : EditTarget) (pv : PollValue)
    (hnc : (st._hasEditor &&
            jsLooseEq t.selector (getKey st._model selKey) &&
            jsLooseEq t.property (getKey st._model propKey)) = false)
    (hc : o st.calls (.rsetup t) = .ok pv) :
    _setup (fuel + 1) o st t =
      .ok ({ st with
              cacheModel := st.cacheModel.orElse (fun _ => some t),
              _hasEditor := true, syncOn := true,
              leaked := st.leaked + (if st.syncOn then 1 else 0),
              calls := st.calls + 1 },
           [.issue (.rsetup t), .complete (.rsetup t)], .resolvedEmpty) := by
  simp only [_setup, callRemote, hc, _startSyncLoop]
  simp [hnc]

/-- The LostContext diagnostic produced when the injected namespace is gone
after a page reload. -/
def lostDiag : Diagnostic :=
  { description := some ("TypeError: Cannot call method getModel of undefined") }

/-- An environment in which every remote call throws a generic error: in
particular every injection attempt fails. -/
def oInjectFail : Oracle :=
  fun _ _ => .thrown { description := some ("injection failed") }

/-- One LostContext failure delivered to the failure handler, under the
injection-failing environment. -/
def failStep (st : DriverState) : Except Fault RunResult :=
  _whenRemoteCallFailed 9 oInjectFail st (some lostDiag)

/-- States after 1..5 consecutive LostContext failures with failed
injection. -/
def sFail1 : DriverState := stOf (failStep initState)

/-- See `sFail1`. -/
def sFail2 : DriverState := stOf (failStep sFail1)

/-- See `sFail1`. -/
def sFail3 : DriverState := stOf (failStep sFail2)

/-- See `sFail1`. -/
def sFail4 : DriverState := stOf (failStep sFail3)

/-- See `sFail1`. -/
def sFail5 : DriverState := stOf (failStep sFail4)

/-- C4: the reconnect budget starts at its maximum of 5; a reconnect with an
exhausted budget is abandoned — rejected with an empty trace, so no injection
is attempted and the budget is not reset; a reconnect whose injection fails
decrements the budget by exactly one; a reconnect whose injection succeeds
resets the budget to 5 while restoring the cached target; `_remove`, `_init`,
the remote-fault handler path, a well-formed sync tick, a successful
same-target `update` and a successful non-collapsing `setup` never change the
budget; and concretely, five consecutive LostContext failures with failing
injection drive the budget 5 → 4 → 3 → 2 → 1 → 0, each attempting an
injection, and the sixth failure is abandoned with no injection attempt and
the budget left at 0. -/
theorem c4_reconnect_budget :
    initState._retryCount = 5 ∧
    (∀ (fuel : Nat) (o : Oracle) (st : DriverState), st._retryCount = 0 →
      _reconnect (fuel + 1) o st = .ok (st, [], .rejectedWith none)) ∧
    (∀ (fuel : Nat) (o : Oracle) (st : DriverState) (n : Nat) (d : Diagnostic),
      st._retryCount = n + 1 →
      o st.calls (.rinject (LiveEditorRemoteDriver :: st.cacheDependencies.getD [])) = .thrown d →
      _reconnect (fuel + 1) o st =
        .ok ({ st with
                _retryCount := n,
                cacheDependencies := some (LiveEditorRemoteDriver :: st.cacheDependencies.getD []),
                calls := st.calls + 1 },
             [.initNote,
              .issue (.rinject (LiveEditorRemoteDriver :: st.cacheDependencies.getD [])),
              .failed (.rinject (LiveEditorRemoteDriver :: st.cacheDependencies.getD []))],
             .rejectedWith (some d))) ∧
    (∀ (fuel : Nat) (o : Oracle) (st : DriverState) (n : Nat) (tc : EditTarget)
       (pv1 pv2 : PollValue),
      st._retryCount = n + 1 → st.cacheModel = some tc →
      o st.calls (.rinject (LiveEditorRemoteDriver :: st.cacheDependencies.getD [])) = .ok pv1 →
      o (st.calls + 1) (.rsetup tc) = .ok pv2 →
      ∀ stf tr r, _reconnect (fuel + 2) o st = .ok (stf, tr, r) →
        stf._retryCount = 5) ∧
    (∀ (o : Oracle) (st : DriverState), ((_remove o st).1)._retryCount = st._retryCount) ∧
    (∀ (o : Oracle) (st : DriverState) (p : Option (List String)),
      ((_init o st p).1)._retryCount = st._retryCount) ∧
    (∀ (fuel : Nat) (o : Oracle) (st : DriverState) (d : Option Diagnostic),
      lostContextPattern d = false →
      ∀ stf tr r, _whenRemoteCallFailed (fuel + 1) o st d = .ok (stf, tr, r) →
        stf._retryCount = st._retryCount) ∧
    (∀ (fuel : Nat) (o : Oracle) (st : DriverState) (data : List (String × JVal)),
      o st.calls .rgetModel = .ok (.parsed data) →
      (stOf (_onSyncTick fuel o st))._retryCount = st._retryCount) ∧
    (∀ (fuel : Nat) (o : Oracle) (st : DriverState) (t : EditTarget) (pv : PollValue),
      st._hasEditor = true →
      (jsStrictEq t.selector (getKey st._model selKey) &&
       jsStrictEq t.property (getKey st._model propKey)) = true →
      o st.calls (.rupdate t) = .ok pv →
      (stOf (_update (fuel + 1) o st t))._retryCount = st._retryCount) ∧
    (∀ (fuel : Nat) (o : Oracle) (st : DriverState) (t : EditTarget) (pv : PollValue),
      (st._hasEditor &&
       jsLooseEq t.selector (getKey st._model selKey) &&
       jsLooseEq t.property (getKey st._model propKey)) = false →
      o st.calls (.rsetup t) = .ok pv →
      (stOf (_setup (fuel + 1) o st t))._retryCount = st._retryCount) ∧
    (lostContextPattern (some lostDiag) = true ∧
     sFail1._retryCount = 4 ∧ sFail2._retryCount = 3 ∧ sFail3._retryCount = 2 ∧
     sFail4._retryCount = 1 ∧ sFail5._retryCount = 0 ∧
     (trOf (failStep initState)).any isInjectIssue = true ∧
     (trOf (failStep sFail4)).any isInjectIssue = true ∧
     failStep sFail5 = .ok (sFail5, [], .rejectedWith none)) := by
  refine ⟨rfl, ?_, ?_, ?_, remove_preserves_retry, init_preserves_retry,
    remoteFault_preserves_retry, ?_, ?_, ?_,
    rfl, rfl, rfl, rfl, rfl, rfl, rfl, rfl, rfl⟩
  · intro fuel o st h
    simp [_reconnect, h]
  · intro fuel o st n d hn hc
    simp only [_reconnect, hn, Nat.succ_ne_zero, if_false, _init, callRemote, hc]
    rfl
  · intro fuel o st n tc pv1 pv2 hn hcm hc1 hc2 stf tr r hrun
    simp only [_reconnect, hn, Nat.succ_ne_zero, if_false, _init, callRemote,
      hc1, _reset, _stopSyncLoop, hcm, _setup, Option.orElse, hc2,
      _startSyncLoop] at hrun
    simp at hrun
    obtain ⟨hstf, -, -⟩ := hrun
    rw [← hstf]
  · intro fuel o st data hc
    rw [onSyncTick_parsed fuel o st data hc]
    rfl
  · intro fuel o st t pv h1 h2 hc
    rw [update_match_ok fuel o st t pv h1 h2 hc]
    rfl
  · intro fuel o st t pv hnc hc
    rw [setup_noncollapse_ok fuel o st t pv hnc hc]
    rfl

/-- C4, witness: the reconnect mechanics at concrete states — abandonment at
budget 0, decrement 1 → 0 under failing injection, and reset to 5 on a
successful reconnect from `stR` (cache `tBox`, budget 5). -/
theorem c4_reconnect_budget_witness :
    _reconnect (8 + 1) oInjectFail sFail5 = .ok (sFail5, [], .rejectedWith none) ∧
    sFail4._retryCount = 1 ∧ sFail5._retryCount = 0 ∧
    (stOf (_reconnect (7 + 2) oAllOk stR))._retryCount = 5 := by
  refine ⟨c4_reconnect_budget.2.1 8 oInjectFail sFail5 rfl, rfl, rfl, ?_⟩
  exact c4_reconnect_budget.2.2.2.1 7 oAllOk stR 4 tBox (.parsed []) (.parsed [])
    rfl rfl rfl rfl (stOf (_reconnect (7 + 2) oAllOk stR))
    (trOf (_reconnect (7 + 2) oAllOk stR)) .resolvedEmpty (by rfl)

/-! ### C9 — malformed poll results -/

/-- C9: a sync tick whose `getModel` result is missing, not a string, or
unparsable JSON raises the malformed-model failure inside
`_whenGetRemoteModel`, and the tick routes it to the failure handler as a
rejection whose reason carries no `description` — which the handler
classifies as a remote fault (not LostContext): the cached pending target is
cleared and `_remove()` forced.  The tick itself returns normally: no failure
escapes the tick handler. -/
theorem c9_malformed_poll_routed (fuel : Nat) (o : Oracle) (st : DriverState)
    (pv : PollValue)
    (hpv : pv = .missing ∨ pv = .badValue ∨ pv = .unparsable)
    (hc : o st.calls .rgetModel = .ok pv) :
    _whenGetRemoteModel pv st._model = .error .malformedModel ∧
    lostContextPattern (some { description := none }) = false ∧
    _onSyncTick (fuel + 1) o st =
      .ok ((_remove o { st with cacheModel := none, calls := st.calls + 1 }).1,
           [.issue .rgetModel, .complete .rgetModel] ++
             (_remove o { st with cacheModel := none, calls := st.calls + 1 }).2.1,
           .rejectedWith (some { description := none })) := by
  rcases hpv with h | h | h <;> subst h <;>
    refine ⟨rfl, rfl, ?_⟩ <;>
    · simp only [_onSyncTick, callRemote, hc, _whenGetRemoteModel,
        _whenRemoteCallFailed, lostContextPattern]
      simp

/-- An environment whose poll result object is missing. -/
def oPollMissing : Oracle := fun _ _ => .ok .missing

/-- C9, witness: a missing poll result at the initial state is routed to the
failure handler and the tick returns a rejected outcome, not an escaped
failure. -/
theorem c9_malformed_poll_routed_witness :
    _onSyncTick (1 + 1) oPollMissing initState =
      .ok ({ initState with cacheModel := none, calls := 1 },
           [.issue .rgetModel, .complete .rgetModel],
           .rejectedWith (some { description := none })) := by
  exact (c9_malformed_poll_routed 1 oPollMissing initState .missing
    (Or.inl rfl) rfl).2.2

/-! ### C10 — reconnect restore can dereference a cleared cache -/

/-- The Active state after a second `setup(tBox)` issued before any sync
tick: because the snapshot is still empty the call does not collapse, a
second sync interval is started and the first one leaked (its handle was
overwritten and can never be cleared). -/
def stB : DriverState := stOf (_setup 9 oAllOk stA tBox)

/-- An environment in which the poll fails with a generic (non-LostContext)
error and everything else succeeds. -/
def oFaulty : Oracle := fun _ c =>
  match c with
  | .rgetModel => .thrown { description := some ("Some unexpected failure") }
  | _ => .ok (.parsed [])

/-- The state after the current interval's tick hit the generic failure: the
remote-fault path cleared the cached pending target and `_remove` reset the
session — but the leaked interval is still firing. -/
def stC : DriverState := stOf (_onSyncTick 9 oFaulty stB)

/-- An environment in which the poll fails with the missing-namespace
LostContext error (a page reload discarded the injected script) and
everything else — in particular the re-injection — succeeds. -/
def oLost : Oracle := fun _ c =>
  match c with
  | .rgetModel => .thrown lostDiag
  | _ => .ok (.parsed [])

/-- C10: a reachable crash.  From the initial state: `setup(tBox)` succeeds;
a second `setup(tBox)` before any tick does not collapse (empty snapshot) and
leaks the first sync interval; the current interval's tick fails with a
generic error, so the remote-fault path clears `_cache.model` and resets the
session — but the leaked interval keeps firing; its next tick fails with the
missing-namespace error, the reconnect supervisor re-injects successfully
(budget was full), and the restore step executes `_setup(_cache.model)` with
`_cache.model === undefined`, raising a `TypeError` inside `model.get` —
the restore step dereferences the cleared cache, contradicting the claim. -/
theorem c10_leaked_tick_restore_crash :
    stB._hasEditor = true ∧ stB.syncOn = true ∧ stB.leaked = 1 ∧
    lostContextPattern (some { description := some ("Some unexpected failure") }) = false ∧
    stC.cacheModel = none ∧ stC.syncOn = false ∧ stC.leaked = 1 ∧
    stC._retryCount = 5 ∧
    lostContextPattern (some lostDiag) = true ∧
    _onSyncTick 9 oLost stC = .error .undefDeref :=
  ⟨rfl, rfl, rfl, rfl, rfl, rfl, rfl, rfl, rfl, rfl⟩

end LiveEditorLocalDriver
